import Mathlib

/-!
Verification development for the e3d-viewer repository.

The viewer core (the Vue single-file component holding `loadModel`, the
view/projection toggles, the gizmo toggles and `resetView`) is embedded as a
pure state machine over `ViewerState`.  Coordinates are embedded as rationals;
THREE.js objects are embedded by the fields the component actually reads and
writes.  The asynchronous `loadModel` is split at its `await` points into a
synchronous prefix (`loadModelIssue`) and a completion continuation
(`loadModelResolve`); the JavaScript event loop delivering completions in an
arbitrary order is embedded as an explicit list of `Action`s.

The upload composable (`use3DModel.ts`) is embedded separately in the
`Upload` namespace, with the remote storage/database modelled as explicit
state and the outcome of each remote call given as data.
-/

namespace E3D

/-- A 3-component vector (`THREE.Vector3`), with rational coordinates. -/
structure Vec3 where
  x : ℚ
  y : ℚ
  z : ℚ
deriving DecidableEq, Repr

instance : Add Vec3 := ⟨fun a b => ⟨a.x + b.x, a.y + b.y, a.z + b.z⟩⟩
instance : Sub Vec3 := ⟨fun a b => ⟨a.x - b.x, a.y - b.y, a.z - b.z⟩⟩
instance : SMul ℚ Vec3 := ⟨fun k v => ⟨k * v.x, k * v.y, k * v.z⟩⟩

/-- The zero vector, `new THREE.Vector3()`. -/
def Vec3.zero : Vec3 := ⟨0, 0, 0⟩

/-- An axis-aligned bounding box (`THREE.Box3`). -/
structure Box3 where
  min : Vec3
  max : Vec3
deriving DecidableEq, Repr

/-- `box.getCenter(new THREE.Vector3())`. -/
def Box3.getCenter (b : Box3) : Vec3 := (1/2 : ℚ) • (b.min + b.max)

/-- `box.getSize(new THREE.Vector3())`. -/
def Box3.getSize (b : Box3) : Vec3 := b.max - b.min

/-- `Math.max(a, b, c)`. -/
def max3 (a b c : ℚ) : ℚ := max (max a b) c

/-- `Math.max(size.x, size.y, size.z)` for the box's size. -/
def Box3.maxDim (b : Box3) : ℚ := max3 b.getSize.x b.getSize.y b.getSize.z

/-- The root node of a loaded model, carrying the fields `loadModel` uses:
the bounding box `new THREE.Box3().setFromObject(currentModel)` computed on
the freshly loaded (untransformed) node, the uniform scale set by
`scale.setScalar`, and the node position. -/
structure Object3D where
  geom : Box3
  scale : ℚ
  position : Vec3
deriving DecidableEq, Repr

/-- The centering-and-scaling block of `loadModel` (the body of
`if (currentModel) { ... }` before `scene.add`): compute box, center, size,
`maxDim`; `scale = 5 / maxDim`; `scale.setScalar(scale)`;
`position.sub(center.multiplyScalar(scale))` from the loader-fresh position
`(0,0,0)`; then `position.y += size.y * scale / 2`.
(When `maxDim = 0`, JavaScript division yields `Infinity` where rational
division yields `0`; no theorem below depends on the numeric value of the
scale in that case, only on the fact that no branch tests `maxDim`.) -/
def normalizeModel (g : Box3) : Object3D :=
  let center := g.getCenter
  let size := g.getSize
  let maxDim := max3 size.x size.y size.z
  let scale := 5 / maxDim
  let p0 := Vec3.zero - (scale • center)
  let p := { p0 with y := p0.y + size.y * scale / 2 }
  { geom := g, scale := scale, position := p }

/-- Minimum corner of the node's world-space bounding box (the node has a
uniform nonnegative scale and a translation, so the world box is the scaled
and shifted local box). -/
def Object3D.worldMin (o : Object3D) : Vec3 := o.position + o.scale • o.geom.min

/-- Maximum corner of the node's world-space bounding box. -/
def Object3D.worldMax (o : Object3D) : Vec3 := o.position + o.scale • o.geom.max

/-- Extents of the node's world-space bounding box. -/
def Object3D.worldSize (o : Object3D) : Vec3 := o.worldMax - o.worldMin

/-- Center of the node's world-space bounding box. -/
def Object3D.worldCenter (o : Object3D) : Vec3 :=
  (1/2 : ℚ) • (o.worldMin + o.worldMax)

/-- A child of the `THREE.Scene`: either one of the objects added once in
`init()` (lights, transform controls, grid, axes), or a loaded model node
tagged with the identity of the `loadModel` call that created it. -/
inductive SceneChild
  | helper (name : String) (visible : Bool)
  | model (id : ℕ) (node : Object3D)
deriving DecidableEq, Repr

/-- The ids of the model nodes among the scene children, in order. -/
def modelIds : List SceneChild → List ℕ
  | [] => []
  | .helper _ _ :: t => modelIds t
  | .model i _ :: t => i :: modelIds t

/-- The names of the persistent helper objects among the scene children. -/
def helperNames : List SceneChild → List String
  | [] => []
  | .helper n _ :: t => n :: helperNames t
  | .model _ _ :: t => helperNames t

/-- `scene.remove(currentModel)`: remove the model node with the given id. -/
def removeModelChild (i : ℕ) (l : List SceneChild) : List SceneChild :=
  l.filter fun c =>
    match c with
    | .helper _ _ => true
    | .model j _ => j != i

/-- `axes.visible = b` / `grid.visible = b` on the named helper. -/
def setHelperVisible (n : String) (b : Bool) : List SceneChild → List SceneChild :=
  List.map fun c =>
    match c with
    | .helper m v => if m == n then .helper m b else .helper m v
    | .model i o => .model i o

/-- `transformControls.setMode` argument. -/
inductive GizmoMode
  | translate
  | rotate
deriving DecidableEq, Repr

/-- The component's `currentView` union type. -/
inductive ViewTag
  | top
  | bottom
  | front
  | back
  | left
  | right
  | iso
deriving DecidableEq, Repr

/-- The camera fields the component reads and writes: position, up vector,
field of view, and the point the camera was last oriented toward
(`camera.lookAt` / `controls.update()` orienting toward `controls.target`). -/
structure CameraState where
  position : Vec3
  up : Vec3
  fov : ℚ
  lookTarget : Vec3
deriving DecidableEq, Repr

/-- The `OrbitControls` fields the component depends on: the orbit target and
the state saved at construction and restored by `controls.reset()`
(`saveState` is never called, so the saved state is the construction-time
state). -/
structure ControlsState where
  target : Vec3
  target0 : Vec3
  position0 : Vec3
deriving DecidableEq, Repr

/-- The eventual outcome of a `loader.loadAsync(url)` call: the bounding box
of the parsed node (the only geometric datum `loadModel` reads from it), or a
rejection with an error message.  The three supported-format branches differ
only in which three-stdlib loader parses the bytes and whether the root is a
`Mesh` or a `Group`; the box/normalize/attach code that follows is shared. -/
inductive LoadOutcome
  | success (geom : Box3)
  | failure (msg : String)
deriving DecidableEq, Repr

/-- An in-flight fetch: the identity of the `loadModel` call that started it
and the outcome its promise will settle with. -/
structure PendingLoad where
  id : ℕ
  outcome : LoadOutcome
deriving DecidableEq, Repr

/-- The whole mutable state of the viewer component: the scene children, the
`currentModel` and `transformControls` bindings, the reactive refs, the
camera and orbit controls, and the event-loop bookkeeping for in-flight
loads (`nextId` numbers `loadModel` calls in issue order). -/
structure ViewerState where
  children : List SceneChild
  currentModel : Option ℕ
  gizmoTarget : Option ℕ
  gizmoMode : GizmoMode
  gizmoVisible : Bool
  isLoading : Bool
  loadingProgress : ℕ
  loadError : String
  showMoveGizmo : Bool
  showRotateGizmo : Bool
  showUCS : Bool
  showGround : Bool
  isPerspective : Bool
  currentView : ViewTag
  camera : CameraState
  controls : ControlsState
  nextId : ℕ
  pending : List PendingLoad
deriving DecidableEq, Repr

/-- The state after `init()`: ambient and directional lights, the transform
controls, the grid (named `ground`) and the axes (named `ucs`) added to the
scene in that order; camera at `(5,5,5)` with default up `(0,1,0)` and
`fov = 75`; orbit controls targeting the origin (so the saved reset state is
target `(0,0,0)`, position `(5,5,5)`); move gizmo shown in translate mode;
view tag `iso`; no load in flight. -/
def initState : ViewerState where
  children :=
    [ .helper "ambientLight" true
    , .helper "directionalLight" true
    , .helper "transformControls" true
    , .helper "ground" true
    , .helper "ucs" true ]
  currentModel := none
  gizmoTarget := none
  gizmoMode := .translate
  gizmoVisible := true
  isLoading := false
  loadingProgress := 0
  loadError := ""
  showMoveGizmo := true
  showRotateGizmo := false
  showUCS := true
  showGround := true
  isPerspective := true
  currentView := .iso
  camera := { position := ⟨5, 5, 5⟩, up := ⟨0, 1, 0⟩, fov := 75, lookTarget := Vec3.zero }
  controls := { target := Vec3.zero, target0 := Vec3.zero, position0 := ⟨5, 5, 5⟩ }
  nextId := 0
  pending := []

/-- `url.split('.').pop()?.toLowerCase()`.  JavaScript `split` never returns
an empty array, so `pop` always yields a string, namely the suffix of `url`
after its last `.` (the whole string when it has no dot, the empty string
when it ends in a dot); `toLowerCase` lowercases it character by character.
Implemented structurally on the character list so that it evaluates by
kernel reduction. -/
def extensionOf (url : String) : String :=
  String.mk (((url.data.reverse.takeWhile (fun c => c ≠ '.')).reverse).map Char.toLower)

/-- Whether the extension reaches one of the three loader branches rather
than the `else` (unsupported-format) branch of `loadModel`. -/
def supportedExt (e : String) : Bool :=
  e == "stl" || e == "3mf" || e == "glb" || e == "gltf"

/-- The synchronous prefix of `loadModel(url)`, up to its first `await`:
set `isLoading`/progress/error; clear the previous model (remove from scene,
detach gizmo, null `currentModel`) — note this happens before the extension
is examined; then either start a fetch (registering the completion to be
delivered later by `loadModelResolve`) or, in the unsupported-format branch,
set the error and run the `finally` block. -/
def loadModelIssue (s : ViewerState) (url : String) (outcome : LoadOutcome) :
    ViewerState :=
  let s1 := { s with isLoading := true, loadingProgress := 0, loadError := "" }
  let s2 :=
    match s1.currentModel with
    | some i =>
        { s1 with children := removeModelChild i s1.children
                , gizmoTarget := none
                , currentModel := none }
    | none => s1
  let ext := extensionOf url
  if supportedExt ext then
    { s2 with pending := s2.pending ++ [⟨s2.nextId, outcome⟩]
            , nextId := s2.nextId + 1 }
  else
    { s2 with loadError := "Unsupported file format: " ++ ext
            , isLoading := false
            , loadingProgress := 100 }

/-- The continuation of `loadModel` after its `await loader.loadAsync(url)`
settles, for the call with id `i` (a no-op if no such fetch is in flight).
On success: build the node, run the centering/scaling block, `scene.add`,
`transformControls.attach`; on rejection: the `catch` block sets the error;
either way the `finally` block clears `isLoading` and forces progress to
`100`. -/
def loadModelResolve (s : ViewerState) (i : ℕ) : ViewerState :=
  match s.pending.find? (fun p => p.id == i) with
  | none => s
  | some p =>
    let s1 := { s with pending := s.pending.filter fun q => q.id != i }
    match p.outcome with
    | .failure msg =>
        { s1 with loadError := msg, isLoading := false, loadingProgress := 100 }
    | .success g =>
        { s1 with currentModel := some i
                , children := s1.children ++ [.model i (normalizeModel g)]
                , gizmoTarget := some i
                , isLoading := false
                , loadingProgress := 100 }

/-- `toggleMove()`: flip `showMoveGizmo`; if the rotate flag is set, clear it;
then either put the transform controls in translate mode and show them, or
hide them.  The gizmo is never detached here and the scene children are not
touched. -/
def toggleMove (s : ViewerState) : ViewerState :=
  let s1 := { s with showMoveGizmo := !s.showMoveGizmo }
  let s2 := if s1.showRotateGizmo then { s1 with showRotateGizmo := false } else s1
  if s2.showMoveGizmo then
    { s2 with gizmoMode := .translate, gizmoVisible := true }
  else
    { s2 with gizmoVisible := false }

/-- `toggleRotate()`: mirror image of `toggleMove` for the rotate flag. -/
def toggleRotate (s : ViewerState) : ViewerState :=
  let s1 := { s with showRotateGizmo := !s.showRotateGizmo }
  let s2 := if s1.showMoveGizmo then { s1 with showMoveGizmo := false } else s1
  if s2.showRotateGizmo then
    { s2 with gizmoMode := .rotate, gizmoVisible := true }
  else
    { s2 with gizmoVisible := false }

/-- `toggleUCS()`: flip the flag and set the visibility of the helper named
`ucs`. -/
def toggleUCS (s : ViewerState) : ViewerState :=
  let b := !s.showUCS
  { s with showUCS := b, children := setHelperVisible "ucs" b s.children }

/-- `toggleGround()`: flip the flag and set the visibility of the helper
named `ground`. -/
def toggleGround (s : ViewerState) : ViewerState :=
  let b := !s.showGround
  { s with showGround := b, children := setHelperVisible "ground" b s.children }

/-- `resetView()`: `controls.reset()` restores the construction-time target
and camera position (re-orienting the camera toward the restored target);
then `camera.position.set(5, 5, 5)` and `camera.lookAt(0, 0, 0)`.  Note that
`currentView` is not written. -/
def resetView (s : ViewerState) : ViewerState :=
  let cam1 : CameraState :=
    { s.camera with position := s.controls.position0, lookTarget := s.controls.target0 }
  let s1 := { s with
    controls := { s.controls with target := s.controls.target0 },
    camera := cam1 }
  { s1 with camera := { s1.camera with position := ⟨5, 5, 5⟩, lookTarget := Vec3.zero } }

/-- `toggleTopBottom()`: from `top` go to `bottom` at `(0,-10,0)` with up
`(0,0,1)`; from any other view go to `top` at `(0,10,0)` with up `(0,0,-1)`;
then `camera.lookAt(0,0,0)` followed by `controls.update()`, which orients
the camera toward `controls.target` (with no pending user input the update
leaves the position as set). -/
def toggleTopBottom (s : ViewerState) : ViewerState :=
  let distance : ℚ := 10
  let s1 :=
    if s.currentView = ViewTag.top then
      { s with currentView := .bottom
             , camera := { s.camera with position := ⟨0, -distance, 0⟩, up := ⟨0, 0, 1⟩ } }
    else
      { s with currentView := .top
             , camera := { s.camera with position := ⟨0, distance, 0⟩, up := ⟨0, 0, -1⟩ } }
  { s1 with camera := { s1.camera with lookTarget := s1.controls.target } }

/-- `toggleFrontBack()`: from `front` go to `back` at `(0,0,-10)`, otherwise
to `front` at `(0,0,10)`; up is set to `(0,1,0)` in both branches; then
`lookAt` and `controls.update()` as in `toggleTopBottom`. -/
def toggleFrontBack (s : ViewerState) : ViewerState :=
  let distance : ℚ := 10
  let s1 :=
    if s.currentView = ViewTag.front then
      { s with currentView := .back
             , camera := { s.camera with position := ⟨0, 0, -distance⟩, up := ⟨0, 1, 0⟩ } }
    else
      { s with currentView := .front
             , camera := { s.camera with position := ⟨0, 0, distance⟩, up := ⟨0, 1, 0⟩ } }
  { s1 with camera := { s1.camera with lookTarget := s1.controls.target } }

/-- `toggleLeftRight()`: from `left` go to `right` at `(10,0,0)`, otherwise
to `left` at `(-10,0,0)`; up `(0,1,0)`; then `lookAt` and
`controls.update()`. -/
def toggleLeftRight (s : ViewerState) : ViewerState :=
  let distance : ℚ := 10
  let s1 :=
    if s.currentView = ViewTag.left then
      { s with currentView := .right
             , camera := { s.camera with position := ⟨distance, 0, 0⟩, up := ⟨0, 1, 0⟩ } }
    else
      { s with currentView := .left
             , camera := { s.camera with position := ⟨-distance, 0, 0⟩, up := ⟨0, 1, 0⟩ } }
  { s1 with camera := { s1.camera with lookTarget := s1.controls.target } }

/-- `toggleCameraMode()`: flip `isPerspective`.  Entering the
orthographic-like mode sets `fov = 15` and pushes the camera back:
`newDistance = position.length() * 3` followed by
`position.normalize().multiplyScalar(newDistance)`, which equals `3 • position`
(`THREE.Vector3.normalize` divides by `length || 1`, so the zero vector maps
to itself and `(v / ‖v‖) * (3‖v‖) = 3 v` otherwise).  Returning to
perspective only restores `fov = 75`; the position is left where it is.
Ends with `controls.update()`. -/
def toggleCameraMode (s : ViewerState) : ViewerState :=
  let s1 := { s with isPerspective := !s.isPerspective }
  let s2 :=
    if !s1.isPerspective then
      { s1 with camera :=
          { s1.camera with fov := 15, position := (3 : ℚ) • s1.camera.position } }
    else
      { s1 with camera := { s1.camera with fov := 75 } }
  { s2 with camera := { s2.camera with lookTarget := s2.controls.target } }

/-- One of the component's UI commands (a control-panel button press). -/
inductive UIAction
  | toggleMove
  | toggleRotate
  | toggleUCS
  | toggleGround
  | resetView
  | toggleTopBottom
  | toggleFrontBack
  | toggleLeftRight
  | toggleCameraMode
deriving DecidableEq, Repr

/-- Dispatch a UI command. -/
def uiStep (s : ViewerState) : UIAction → ViewerState
  | .toggleMove => toggleMove s
  | .toggleRotate => toggleRotate s
  | .toggleUCS => toggleUCS s
  | .toggleGround => toggleGround s
  | .resetView => resetView s
  | .toggleTopBottom => toggleTopBottom s
  | .toggleFrontBack => toggleFrontBack s
  | .toggleLeftRight => toggleLeftRight s
  | .toggleCameraMode => toggleCameraMode s

/-- An event on the single JavaScript thread: a UI command, a `loadModel`
call running its synchronous prefix, or the event loop delivering the
completion of the in-flight fetch started by call number `id`. -/
inductive Action
  | ui (a : UIAction)
  | issueLoad (url : String) (outcome : LoadOutcome)
  | resolveLoad (id : ℕ)

/-- Small-step semantics of the component. -/
def step (s : ViewerState) : Action → ViewerState
  | .ui a => uiStep s a
  | .issueLoad url outcome => loadModelIssue s url outcome
  | .resolveLoad i => loadModelResolve s i

/-- Run a sequence of events from the freshly initialized component. -/
def run (acts : List Action) : ViewerState :=
  acts.foldl step initState

/-- A complete, non-overlapping `loadModel` cycle: the call runs, and if it
started a fetch, that fetch's completion is delivered before anything else
happens. -/
def loadOp (s : ViewerState) (url : String) (outcome : LoadOutcome) : ViewerState :=
  let s1 := loadModelIssue s url outcome
  if supportedExt (extensionOf url) then loadModelResolve s1 s.nextId else s1

/-- Run a sequence of non-overlapping `loadModel` cycles from the freshly
initialized component. -/
def runLoads (ops : List (String × LoadOutcome)) : ViewerState :=
  ops.foldl (fun s p => loadOp s p.1 p.2) initState

namespace Upload

/-- The browser `File` fields `uploadModel` reads.  `lastModifiedIso` stands
for `file.lastModified ? new Date(file.lastModified).toISOString() :
undefined` with the opaque `Date` formatting already applied (`none` when
`lastModified` is falsy). -/
structure UploadFile where
  name : String
  size : ℕ
  lastModifiedIso : Option String
deriving DecidableEq, Repr

/-- The metadata object `uploadModel` builds and inserts (the fields of the
`ModelMetadata` interface it populates). -/
structure ModelRow where
  id : String
  user_id : String
  folder_path : String
  file_hash : String
  original_filename : String
  file_size : ℕ
  file_type : String
  source_modified_at : Option String
  storage_path : String
  title : String
  description : Option String
  tags : List String
  is_public : Bool
  allow_download : Bool
  uploaded_at : String
  updated_at : String
  view_count : ℕ
  download_count : ℕ
deriving DecidableEq, Repr

/-- The remote backend state: the set of stored object paths in the
`e3d-models` bucket and the rows of the `e3d_models` table. -/
structure Backend where
  storage : List String
  rows : List ModelRow
deriving DecidableEq, Repr

/-- The outcomes the two remote calls inside `uploadModel` will settle with
(`none` = the call succeeds; `some e` = the supabase client returns error
`e`).  The `remove` cleanup call returns an error object rather than
throwing, and its error is not examined by the code. -/
structure RemoteOutcome where
  uploadError : Option String
  insertError : Option String
deriving DecidableEq, Repr

/-- The options argument of `uploadModel` after destructuring (defaults
applied by the caller of this embedding as in the source: `folderPath = ''`,
`tags = []`, `isPublic = false`). -/
structure UploadOptions where
  folderPath : String
  title : Option String
  description : Option String
  tags : List String
  isPublic : Bool
deriving DecidableEq, Repr

/-- The value `uploadModel` resolves with. -/
structure UploadResultRec where
  id : String
  path : String
  metadata : ModelRow
deriving DecidableEq, Repr

/-- `file.name.split('.').pop()?.toLowerCase() || 'unknown'` (the `||`
replaces the empty string, which is falsy, by `'unknown'`); the split/pop
composition is `extensionOf`. -/
def fileExtOf (name : String) : String :=
  let e := extensionOf name
  if e = "" then "unknown" else e

/-- The storage path `users/{userId}/{folderPath + '/'}{modelId}.{ext}`
built by `uploadModel`. -/
def storagePathFor (userId folderPath modelId fileExt : String) : String :=
  let folderPart := if folderPath ≠ "" then folderPath ++ "/" else ""
  "users/" ++ userId ++ "/" ++ folderPart ++ modelId ++ "." ++ fileExt

/-- `uploadModel(file, options)` from `use3DModel.ts`, with the
non-deterministic inputs passed explicitly: `userId` is
`user.value?.id || user.value?.sub`, `modelId` is the `generateModelId()`
draw, `fileHash` the `calculateFileHash` digest and `nowIso` the
`new Date().toISOString()` timestamp.  Returns the final backend state
together with the promise outcome: `Except.error` embeds a `throw`.
Storage upload appends the path; on metadata-insert failure the path is
removed from storage (path-addressed object deletion) before the error is
rethrown. -/
def uploadModel (env : RemoteOutcome) (st : Backend) (userId : Option String)
    (file : UploadFile) (options : UploadOptions)
    (modelId fileHash nowIso : String) :
    Backend × Except String UploadResultRec :=
  match userId with
  | none => (st, .error "User must be authenticated to upload models")
  | some uid =>
    let fileExt := fileExtOf file.name
    let filePath := storagePathFor uid options.folderPath modelId fileExt
    let metadata : ModelRow :=
      { id := modelId
      , user_id := uid
      , folder_path := options.folderPath
      , file_hash := fileHash
      , original_filename := file.name
      , file_size := file.size
      , file_type := fileExt
      , source_modified_at := file.lastModifiedIso
      , storage_path := filePath
      , title := (match options.title with | some t => if t = "" then file.name else t | none => file.name)
      , description := options.description
      , tags := options.tags
      , is_public := options.isPublic
      , allow_download := true
      , uploaded_at := nowIso
      , updated_at := nowIso
      , view_count := 0
      , download_count := 0 }
    match env.uploadError with
    | some e => (st, .error e)
    | none =>
      let st1 : Backend := { st with storage := st.storage ++ [filePath] }
      match env.insertError with
      | some e =>
          ({ st1 with storage := st1.storage.filter (· ≠ filePath) }, .error e)
      | none =>
          ({ st1 with rows := st1.rows ++ [metadata] },
           .ok { id := modelId, path := filePath, metadata := metadata })

end Upload

/-! ### Supporting lemmas -/

@[simp]
theorem Vec3.add_x (a b : Vec3) : (a + b).x = a.x + b.x := rfl

@[simp]
theorem Vec3.add_y (a b : Vec3) : (a + b).y = a.y + b.y := rfl

@[simp]
theorem Vec3.add_z (a b : Vec3) : (a + b).z = a.z + b.z := rfl

@[simp]
theorem Vec3.sub_x (a b : Vec3) : (a - b).x = a.x - b.x := rfl

@[simp]
theorem Vec3.sub_y (a b : Vec3) : (a - b).y = a.y - b.y := rfl

@[simp]
theorem Vec3.sub_z (a b : Vec3) : (a - b).z = a.z - b.z := rfl

@[simp]
theorem Vec3.smul_x (k : ℚ) (v : Vec3) : (k • v).x = k * v.x := rfl

@[simp]
theorem Vec3.smul_y (k : ℚ) (v : Vec3) : (k • v).y = k * v.y := rfl

@[simp]
theorem Vec3.smul_z (k : ℚ) (v : Vec3) : (k • v).z = k * v.z := rfl

theorem modelIds_append (l1 l2 : List SceneChild) :
    modelIds (l1 ++ l2) = modelIds l1 ++ modelIds l2 := by
  induction l1 with
  | nil => rfl
  | cons c t ih => cases c <;> simp [modelIds, ih]

theorem helperNames_append (l1 l2 : List SceneChild) :
    helperNames (l1 ++ l2) = helperNames l1 ++ helperNames l2 := by
  induction l1 with
  | nil => rfl
  | cons c t ih => cases c <;> simp [helperNames, ih]

theorem modelIds_removeModelChild (i : ℕ) (l : List SceneChild) :
    modelIds (removeModelChild i l) = (modelIds l).filter (· != i) := by
  induction l with
  | nil => rfl
  | cons c t ih =>
    cases c with
    | helper n v => simpa [removeModelChild, modelIds] using ih
    | model j o =>
      by_cases hj : (j != i) = true
      · simp [removeModelChild, modelIds, hj] at ih ⊢
        exact ih
      · simp [removeModelChild, modelIds, hj] at ih ⊢
        exact ih

theorem helperNames_removeModelChild (i : ℕ) (l : List SceneChild) :
    helperNames (removeModelChild i l) = helperNames l := by
  induction l with
  | nil => rfl
  | cons c t ih =>
    cases c with
    | helper n v => simpa [removeModelChild, helperNames] using ih
    | model j o =>
      by_cases hj : (j != i) = true
      · simp [removeModelChild, helperNames, hj] at ih ⊢
        exact ih
      · simp [removeModelChild, helperNames, hj] at ih ⊢
        exact ih

theorem modelIds_setHelperVisible (n : String) (b : Bool) (l : List SceneChild) :
    modelIds (setHelperVisible n b l) = modelIds l := by
  induction l with
  | nil => rfl
  | cons c t ih =>
    cases c with
    | helper m v =>
      by_cases hm : m = n <;> simpa [setHelperVisible, modelIds, hm] using ih
    | model j o => simpa [setHelperVisible, modelIds] using ih

theorem helperNames_setHelperVisible (n : String) (b : Bool) (l : List SceneChild) :
    helperNames (setHelperVisible n b l) = helperNames l := by
  induction l with
  | nil => rfl
  | cons c t ih =>
    cases c with
    | helper m v =>
      by_cases hm : m = n <;> simpa [setHelperVisible, helperNames, hm] using ih
    | model j o => simpa [setHelperVisible, helperNames] using ih

/-- The state invariant maintained by non-overlapping load cycles: the model
children of the scene are exactly the ones the `currentModel` variable
references (zero or one), the five persistent helpers are all present, and
no fetch is in flight. -/
def GoodModels (s : ViewerState) : Prop :=
  modelIds s.children = s.currentModel.toList ∧
  helperNames s.children =
    ["ambientLight", "directionalLight", "transformControls", "ground", "ucs"] ∧
  s.pending = []

theorem goodModels_init : GoodModels initState := by
  refine ⟨rfl, rfl, rfl⟩

theorem goodModels_loadOp (s : ViewerState) (url : String) (o : LoadOutcome)
    (h : GoodModels s) : GoodModels (loadOp s url o) := by
  obtain ⟨h1, h2, h3⟩ := h
  have hclear :
      modelIds
        (match s.currentModel with
          | some i => removeModelChild i s.children
          | none => s.children) = [] := by
    cases hc : s.currentModel with
    | none => simpa [hc] using h1
    | some i =>
      rw [hc] at h1
      simp [modelIds_removeModelChild, h1]
  have hclearNames :
      helperNames
        (match s.currentModel with
          | some i => removeModelChild i s.children
          | none => s.children) =
        ["ambientLight", "directionalLight", "transformControls", "ground", "ucs"] := by
    cases hc : s.currentModel with
    | none => simpa [hc] using h2
    | some i => simp [helperNames_removeModelChild, h2]
  by_cases hs : supportedExt (extensionOf url) = true
  · cases hc : s.currentModel with
    | none =>
      rw [hc] at hclear hclearNames
      cases o with
      | success g =>
        simp [loadOp, loadModelIssue, loadModelResolve, hs, hc, h3, GoodModels,
          modelIds_append, helperNames_append, hclear, hclearNames, modelIds, helperNames]
      | failure m =>
        simp [loadOp, loadModelIssue, loadModelResolve, hs, hc, h3, GoodModels,
          hclear, hclearNames]
    | some i =>
      rw [hc] at hclear hclearNames
      cases o with
      | success g =>
        simp [loadOp, loadModelIssue, loadModelResolve, hs, hc, h3, GoodModels,
          modelIds_append, helperNames_append, hclear, hclearNames, modelIds, helperNames]
      | failure m =>
        simp [loadOp, loadModelIssue, loadModelResolve, hs, hc, h3, GoodModels,
          hclear, hclearNames]
  · cases hc : s.currentModel with
    | none =>
      rw [hc] at hclear hclearNames
      simp [loadOp, loadModelIssue, hs, hc, h3, GoodModels, hclear, hclearNames]
    | some i =>
      rw [hc] at hclear hclearNames
      simp [loadOp, loadModelIssue, hs, hc, h3, GoodModels, hclear, hclearNames]

theorem goodModels_runLoadsFrom (ops : List (String × LoadOutcome)) :
    ∀ s : ViewerState, GoodModels s →
      GoodModels (ops.foldl (fun t p => loadOp t p.1 p.2) s) := by
  induction ops with
  | nil => intro s h; exact h
  | cons p t ih => intro s h; exact ih _ (goodModels_loadOp s p.1 p.2 h)

theorem goodModels_runLoads (ops : List (String × LoadOutcome)) :
    GoodModels (runLoads ops) :=
  goodModels_runLoadsFrom ops initState goodModels_init

theorem helperNames_uiStep (s : ViewerState) (a : UIAction) :
    helperNames (uiStep s a).children = helperNames s.children := by
  cases a <;>
    simp only [uiStep, toggleMove, toggleRotate, toggleUCS, toggleGround, resetView,
      toggleTopBottom, toggleFrontBack, toggleLeftRight, toggleCameraMode,
      helperNames_setHelperVisible] <;>
    split_ifs <;> rfl

theorem helperNames_step (s : ViewerState) (a : Action) :
    helperNames (step s a).children = helperNames s.children := by
  cases a with
  | ui u => exact helperNames_uiStep s u
  | issueLoad url o =>
    cases hc : s.currentModel with
    | none =>
      by_cases hs : supportedExt (extensionOf url) = true <;>
        simp [step, loadModelIssue, hc, hs]
    | some i =>
      by_cases hs : supportedExt (extensionOf url) = true <;>
        simp [step, loadModelIssue, hc, hs, helperNames_removeModelChild]
  | resolveLoad i =>
    cases hf : s.pending.find? (fun p => p.id == i) with
    | none => simp [step, loadModelResolve, hf]
    | some p =>
      obtain ⟨pid, po⟩ := p
      cases po <;> simp [step, loadModelResolve, hf, helperNames_append, helperNames]

theorem helperNames_runFrom (acts : List Action) :
    ∀ s : ViewerState, helperNames (acts.foldl step s).children = helperNames s.children := by
  induction acts with
  | nil => intro s; rfl
  | cons a t ih => intro s; rw [List.foldl_cons, ih, helperNames_step]

/-- The move and rotate gizmo flags are never simultaneously set. -/
def NotBothGizmos (s : ViewerState) : Prop :=
  s.showMoveGizmo = false ∨ s.showRotateGizmo = false

theorem toggleMove_showRotate (s : ViewerState) :
    (toggleMove s).showRotateGizmo = false := by
  unfold toggleMove
  cases hr : s.showRotateGizmo <;> simp [hr] <;> split_ifs <;> rfl

theorem toggleRotate_showMove (s : ViewerState) :
    (toggleRotate s).showMoveGizmo = false := by
  unfold toggleRotate
  cases hm : s.showMoveGizmo <;> simp [hm] <;> split_ifs <;> rfl

theorem notBothGizmos_step (s : ViewerState) (a : Action)
    (h : NotBothGizmos s) : NotBothGizmos (step s a) := by
  cases a with
  | ui u =>
    cases u with
    | toggleMove => exact Or.inr (toggleMove_showRotate s)
    | toggleRotate => exact Or.inl (toggleRotate_showMove s)
    | toggleUCS => simpa [NotBothGizmos, uiStep, toggleUCS] using h
    | toggleGround => simpa [NotBothGizmos, uiStep, toggleGround] using h
    | resetView => simpa [NotBothGizmos, uiStep, resetView] using h
    | toggleTopBottom =>
      have h2 : (uiStep s .toggleTopBottom).showMoveGizmo = s.showMoveGizmo ∧
          (uiStep s .toggleTopBottom).showRotateGizmo = s.showRotateGizmo := by
        simp only [uiStep, toggleTopBottom]; split_ifs <;> exact ⟨rfl, rfl⟩
      show NotBothGizmos (uiStep s .toggleTopBottom)
      unfold NotBothGizmos
      rw [h2.1, h2.2]; exact h
    | toggleFrontBack =>
      have h2 : (uiStep s .toggleFrontBack).showMoveGizmo = s.showMoveGizmo ∧
          (uiStep s .toggleFrontBack).showRotateGizmo = s.showRotateGizmo := by
        simp only [uiStep, toggleFrontBack]; split_ifs <;> exact ⟨rfl, rfl⟩
      show NotBothGizmos (uiStep s .toggleFrontBack)
      unfold NotBothGizmos
      rw [h2.1, h2.2]; exact h
    | toggleLeftRight =>
      have h2 : (uiStep s .toggleLeftRight).showMoveGizmo = s.showMoveGizmo ∧
          (uiStep s .toggleLeftRight).showRotateGizmo = s.showRotateGizmo := by
        simp only [uiStep, toggleLeftRight]; split_ifs <;> exact ⟨rfl, rfl⟩
      show NotBothGizmos (uiStep s .toggleLeftRight)
      unfold NotBothGizmos
      rw [h2.1, h2.2]; exact h
    | toggleCameraMode =>
      have h2 : (uiStep s .toggleCameraMode).showMoveGizmo = s.showMoveGizmo ∧
          (uiStep s .toggleCameraMode).showRotateGizmo = s.showRotateGizmo := by
        simp only [uiStep, toggleCameraMode]; split_ifs <;> exact ⟨rfl, rfl⟩
      show NotBothGizmos (uiStep s .toggleCameraMode)
      unfold NotBothGizmos
      rw [h2.1, h2.2]; exact h
  | issueLoad url o =>
    cases hc : s.currentModel with
    | none =>
      by_cases hs : supportedExt (extensionOf url) = true <;>
        simpa [NotBothGizmos, step, loadModelIssue, hc, hs] using h
    | some i =>
      by_cases hs : supportedExt (extensionOf url) = true <;>
        simpa [NotBothGizmos, step, loadModelIssue, hc, hs] using h
  | resolveLoad i =>
    cases hf : s.pending.find? (fun p => p.id == i) with
    | none => simpa [NotBothGizmos, step, loadModelResolve, hf] using h
    | some p =>
      obtain ⟨pid, po⟩ := p
      cases po <;> simpa [NotBothGizmos, step, loadModelResolve, hf] using h

theorem notBothGizmos_runFrom (acts : List Action) :
    ∀ s : ViewerState, NotBothGizmos s → NotBothGizmos (acts.foldl step s) := by
  induction acts with
  | nil => intro s h; exact h
  | cons a t ih => intro s h; exact ih _ (notBothGizmos_step s a h)

theorem controlsSaved_step (s : ViewerState) (a : Action) :
    (step s a).controls.target0 = s.controls.target0 ∧
      (step s a).controls.position0 = s.controls.position0 := by
  cases a with
  | ui u =>
    cases u <;>
      simp only [step, uiStep, toggleMove, toggleRotate, toggleUCS, toggleGround, resetView,
        toggleTopBottom, toggleFrontBack, toggleLeftRight, toggleCameraMode] <;>
      first
        | exact ⟨rfl, rfl⟩
        | exact ⟨trivial, trivial⟩
        | (split_ifs <;> exact ⟨rfl, rfl⟩)
  | issueLoad url o =>
    cases hc : s.currentModel with
    | none =>
      by_cases hs : supportedExt (extensionOf url) = true <;>
        simp [step, loadModelIssue, hc, hs]
    | some i =>
      by_cases hs : supportedExt (extensionOf url) = true <;>
        simp [step, loadModelIssue, hc, hs]
  | resolveLoad i =>
    cases hf : s.pending.find? (fun p => p.id == i) with
    | none => simp [step, loadModelResolve, hf]
    | some p =>
      obtain ⟨pid, po⟩ := p
      cases po <;> simp [step, loadModelResolve, hf]

theorem controlsSaved_runFrom (acts : List Action) :
    ∀ s : ViewerState,
      (acts.foldl step s).controls.target0 = s.controls.target0 ∧
        (acts.foldl step s).controls.position0 = s.controls.position0 := by
  induction acts with
  | nil => intro s; exact ⟨rfl, rfl⟩
  | cons a t ih =>
    intro s
    refine ⟨?_, ?_⟩
    · rw [List.foldl_cons, (ih (step s a)).1, (controlsSaved_step s a).1]
    · rw [List.foldl_cons, (ih (step s a)).2, (controlsSaved_step s a).2]

/-! ### Claims -/

/-- C1, counterexample.  `loadModel` keeps no request token: with `load(A)`
(call 0, `a.stl`) issued and then `load(B)` (call 1, `b.stl`) issued before
`A` resolves, and the fetches resolving in the order B then A, the superseded
request `A` still mutates the scene — its model is attached, and both
`currentModel` and the gizmo end up bound to `A`'s node, not `B`'s.  This
falsifies the claim that the final scene contains only `B`'s model regardless
of resolution order. -/
theorem C1_counterexample :
    (run
      [ .issueLoad "a.stl" (.success ⟨⟨0, 0, 0⟩, ⟨1, 1, 1⟩⟩)
      , .issueLoad "b.stl" (.success ⟨⟨0, 0, 0⟩, ⟨2, 2, 2⟩⟩)
      , .resolveLoad 1
      , .resolveLoad 0 ]).currentModel = some 0 ∧
    modelIds (run
      [ .issueLoad "a.stl" (.success ⟨⟨0, 0, 0⟩, ⟨1, 1, 1⟩⟩)
      , .issueLoad "b.stl" (.success ⟨⟨0, 0, 0⟩, ⟨2, 2, 2⟩⟩)
      , .resolveLoad 1
      , .resolveLoad 0 ]).children = [1, 0] ∧
    (run
      [ .issueLoad "a.stl" (.success ⟨⟨0, 0, 0⟩, ⟨1, 1, 1⟩⟩)
      , .issueLoad "b.stl" (.success ⟨⟨0, 0, 0⟩, ⟨2, 2, 2⟩⟩)
      , .resolveLoad 1
      , .resolveLoad 0 ]).gizmoTarget = some 0 :=
  ⟨rfl, rfl, rfl⟩

/-- C1 (amended): supersession holds only for non-overlapping requests.  If
`load(A)`'s fetch resolves before `load(B)` is issued, then after `B`'s cycle
completes the scene contains only `B`'s model (when `B` succeeds) or no model
at all together with `B`'s error message (when `B`'s fetch fails); `A`'s
model is gone in either case.  For overlapping requests the code performs no
supersession (see the counterexample). -/
theorem C1_sequential_supersession (gA gB : Box3) (m : String) :
    (modelIds (runLoads [("a.stl", .success gA), ("b.stl", .success gB)]).children = [1] ∧
      (runLoads [("a.stl", .success gA), ("b.stl", .success gB)]).currentModel = some 1) ∧
    (modelIds (runLoads [("a.stl", .success gA), ("b.stl", .failure m)]).children = [] ∧
      (runLoads [("a.stl", .success gA), ("b.stl", .failure m)]).currentModel = none ∧
      (runLoads [("a.stl", .success gA), ("b.stl", .failure m)]).loadError = m) :=
  ⟨⟨rfl, rfl⟩, ⟨rfl, rfl, rfl⟩⟩

/-- C2, counterexample.  Two overlapping `loadModel` calls whose fetches both
resolve leave two model nodes as children of the scene at once, violating the
at-most-one-model invariant claimed for arbitrary interleavings. -/
theorem C2_counterexample :
    modelIds (run
      [ .issueLoad "p.stl" (.success ⟨⟨0, 0, 0⟩, ⟨1, 2, 3⟩⟩)
      , .issueLoad "q.stl" (.success ⟨⟨0, 0, 0⟩, ⟨3, 2, 1⟩⟩)
      , .resolveLoad 0
      , .resolveLoad 1 ]).children = [0, 1] ∧
    1 < (modelIds (run
      [ .issueLoad "p.stl" (.success ⟨⟨0, 0, 0⟩, ⟨1, 2, 3⟩⟩)
      , .issueLoad "q.stl" (.success ⟨⟨0, 0, 0⟩, ⟨3, 2, 1⟩⟩)
      , .resolveLoad 0
      , .resolveLoad 1 ]).children).length :=
  ⟨rfl, by decide⟩

/-- C2 (amended): the at-most-one-model invariant holds for non-overlapping
load cycles (each `loadModel` call's fetch completion delivered before the
next call), and the persistent helpers (lights, transform controls, grid,
axes) are never attached or detached by any sequence of events whatsoever,
overlapping loads included. -/
theorem C2_at_most_one_model :
    (∀ ops : List (String × LoadOutcome),
      (modelIds (runLoads ops).children).length ≤ 1) ∧
    (∀ acts : List Action,
      helperNames (run acts).children =
        ["ambientLight", "directionalLight", "transformControls", "ground", "ucs"]) := by
  constructor
  · intro ops
    obtain ⟨h1, -, -⟩ := goodModels_runLoads ops
    rw [h1]
    cases (runLoads ops).currentModel <;> simp
  · intro acts
    exact (helperNames_runFrom acts initState).trans rfl

/-- C3, counterexample.  With a previously successful model displayed
(call 0, `m.stl`), a subsequent `load` of `x.obj` (unsupported extension)
removes the displayed model from the scene — `loadModel` clears the previous
model before examining the extension — while surfacing the
Unsupported-Format message and forcing progress to 100.  This falsifies the
part of the claim that the previously displayed model is left attached. -/
theorem C3_counterexample :
    modelIds (runLoads [("m.stl", LoadOutcome.success ⟨⟨0, 0, 0⟩, ⟨2, 2, 2⟩⟩)]).children
        = [0] ∧
    modelIds (loadModelIssue
        (runLoads [("m.stl", LoadOutcome.success ⟨⟨0, 0, 0⟩, ⟨2, 2, 2⟩⟩)])
        "x.obj" (LoadOutcome.failure "unused")).children = [] ∧
    (loadModelIssue
        (runLoads [("m.stl", LoadOutcome.success ⟨⟨0, 0, 0⟩, ⟨2, 2, 2⟩⟩)])
        "x.obj" (LoadOutcome.failure "unused")).loadError
        = "Unsupported file format: obj" ∧
    (loadModelIssue
        (runLoads [("m.stl", LoadOutcome.success ⟨⟨0, 0, 0⟩, ⟨2, 2, 2⟩⟩)])
        "x.obj" (LoadOutcome.failure "unused")).loadingProgress = 100 :=
  ⟨rfl, rfl, rfl, rfl⟩

/-- C3 (amended): a `load` with an unsupported extension surfaces the
Unsupported-Format message and forces progress to 100 as claimed, but does
not leave the previously displayed model untouched: the eager clear at the
top of `loadModel` removes it from the scene and detaches the gizmo before
the extension is examined. -/
theorem C3_unsupported_clears_previous (s : ViewerState) (url : String)
    (o : LoadOutcome) (i : ℕ)
    (hext : supportedExt (extensionOf url) = false)
    (hcur : s.currentModel = some i) :
    (loadModelIssue s url o).currentModel = none ∧
    modelIds (loadModelIssue s url o).children = (modelIds s.children).filter (· != i) ∧
    (loadModelIssue s url o).gizmoTarget = none ∧
    (loadModelIssue s url o).loadError = "Unsupported file format: " ++ extensionOf url ∧
    (loadModelIssue s url o).loadingProgress = 100 ∧
    (loadModelIssue s url o).isLoading = false := by
  simp [loadModelIssue, hcur, hext, modelIds_removeModelChild]

/-- C3 witness: the amended theorem applied to the concrete state of the
counterexample (model of call 0 displayed, then `load("x.obj")`). -/
theorem C3_unsupported_clears_previous_witness :
    (loadModelIssue (runLoads [("m.stl", LoadOutcome.success ⟨⟨0, 0, 0⟩, ⟨2, 2, 2⟩⟩)])
        "x.obj" (LoadOutcome.failure "net")).currentModel = none :=
  (C3_unsupported_clears_previous
    (runLoads [("m.stl", LoadOutcome.success ⟨⟨0, 0, 0⟩, ⟨2, 2, 2⟩⟩)])
    "x.obj" (LoadOutcome.failure "net") 0 (by decide) rfl).1

/-- C4, counterexample.  A successfully parsed model whose bounding box is a
single point (maximum dimension zero) is attached to the scene with the
gizmo bound to it and no error surfaced — `loadModel` never tests `maxDim`,
so there is no Normalization-Failure condition.  This falsifies the claim
that normalization fails and the node is not attached. -/
theorem C4_counterexample :
    Box3.maxDim ⟨⟨1, 2, 3⟩, ⟨1, 2, 3⟩⟩ = 0 ∧
    (runLoads [("d.stl", LoadOutcome.success ⟨⟨1, 2, 3⟩, ⟨1, 2, 3⟩⟩)]).loadError = "" ∧
    modelIds (runLoads [("d.stl", LoadOutcome.success ⟨⟨1, 2, 3⟩, ⟨1, 2, 3⟩⟩)]).children
        = [0] ∧
    (runLoads [("d.stl", LoadOutcome.success ⟨⟨1, 2, 3⟩, ⟨1, 2, 3⟩⟩)]).gizmoTarget
        = some 0 :=
  ⟨by norm_num [Box3.maxDim, Box3.getSize, max3], rfl, rfl, rfl⟩

/-- C4 (amended): for every successfully parsed model with a degenerate
(zero-size) bounding box, the code performs no degeneracy check: no error is
surfaced, the node is attached to the scene, `currentModel` and the gizmo
are bound to it (in JavaScript the computed scale is `Infinity`; no branch
depends on it). -/
theorem C4_degenerate_attached (v : Vec3) :
    Box3.maxDim ⟨v, v⟩ = 0 ∧
    (runLoads [("d.stl", LoadOutcome.success ⟨v, v⟩)]).loadError = "" ∧
    (runLoads [("d.stl", LoadOutcome.success ⟨v, v⟩)]).currentModel = some 0 ∧
    modelIds (runLoads [("d.stl", LoadOutcome.success ⟨v, v⟩)]).children = [0] ∧
    (runLoads [("d.stl", LoadOutcome.success ⟨v, v⟩)]).gizmoTarget = some 0 := by
  refine ⟨?_, rfl, rfl, rfl, rfl⟩
  simp [Box3.maxDim, Box3.getSize, max3]

theorem Vec3.ext_comp (a b : Vec3) (hx : a.x = b.x) (hy : a.y = b.y) (hz : a.z = b.z) :
    a = b := by
  cases a; cases b; simp_all

theorem normalizeModel_worldSize (b : Box3) :
    (normalizeModel b).worldSize = (5 / b.maxDim) • b.getSize := by
  refine Vec3.ext_comp _ _ ?_ ?_ ?_ <;>
    simp [normalizeModel, Object3D.worldSize, Object3D.worldMin, Object3D.worldMax,
      Box3.getCenter, Box3.getSize, Box3.maxDim] <;>
    ring

theorem normalizeModel_worldCenter_x (b : Box3) :
    (normalizeModel b).worldCenter.x = 0 := by
  simp [normalizeModel, Object3D.worldCenter, Object3D.worldMin, Object3D.worldMax,
    Box3.getCenter, Box3.getSize, Vec3.zero]
  ring

theorem normalizeModel_worldCenter_z (b : Box3) :
    (normalizeModel b).worldCenter.z = 0 := by
  simp [normalizeModel, Object3D.worldCenter, Object3D.worldMin, Object3D.worldMax,
    Box3.getCenter, Box3.getSize, Vec3.zero]
  ring

theorem normalizeModel_worldMin_y (b : Box3) :
    (normalizeModel b).worldMin.y = 0 := by
  simp [normalizeModel, Object3D.worldMin, Box3.getCenter, Box3.getSize, Vec3.zero]
  ring

theorem max3_mul_nonneg (k a b c : ℚ) (hk : 0 ≤ k) :
    max3 (k * a) (k * b) (k * c) = k * max3 a b c := by
  unfold max3
  rw [mul_max_of_nonneg _ _ hk, mul_max_of_nonneg _ _ hk]

/-- C5 (confirmed): loading a model with a non-degenerate bounding box
attaches exactly one normalized node, and that node's world-space bounding
box has largest extent exactly `5`, horizontal center exactly `(0, _, 0)`,
and minimum `y` exactly `0` (the rational embedding makes the `± epsilon`
of the claim exact). -/
theorem C5_normalization (b : Box3) (h : 0 < b.maxDim) :
    (runLoads [("m.stl", LoadOutcome.success b)]).children
        = initState.children ++ [SceneChild.model 0 (normalizeModel b)] ∧
    max3 (normalizeModel b).worldSize.x (normalizeModel b).worldSize.y
        (normalizeModel b).worldSize.z = 5 ∧
    (normalizeModel b).worldCenter.x = 0 ∧
    (normalizeModel b).worldCenter.z = 0 ∧
    (normalizeModel b).worldMin.y = 0 := by
  have hne : b.maxDim ≠ 0 := ne_of_gt h
  have hscale : (0 : ℚ) ≤ 5 / b.maxDim := by positivity
  refine ⟨rfl, ?_, normalizeModel_worldCenter_x b, normalizeModel_worldCenter_z b,
    normalizeModel_worldMin_y b⟩
  rw [normalizeModel_worldSize]
  show max3 ((5 / b.maxDim) * b.getSize.x) ((5 / b.maxDim) * b.getSize.y)
      ((5 / b.maxDim) * b.getSize.z) = 5
  rw [max3_mul_nonneg _ _ _ _ hscale]
  show (5 / b.maxDim) * b.maxDim = 5
  exact div_mul_cancel₀ 5 hne

/-- C5 witness: the normalization postcondition at the concrete box
`[0,1] × [0,2] × [0,4]` (maximum dimension 4). -/
theorem C5_normalization_witness :
    (0 : ℚ) < Box3.maxDim ⟨⟨0, 0, 0⟩, ⟨1, 2, 4⟩⟩ ∧
    max3 (normalizeModel ⟨⟨0, 0, 0⟩, ⟨1, 2, 4⟩⟩).worldSize.x
        (normalizeModel ⟨⟨0, 0, 0⟩, ⟨1, 2, 4⟩⟩).worldSize.y
        (normalizeModel ⟨⟨0, 0, 0⟩, ⟨1, 2, 4⟩⟩).worldSize.z = 5 ∧
    (normalizeModel ⟨⟨0, 0, 0⟩, ⟨1, 2, 4⟩⟩).worldMin.y = 0 :=
  have hpos : (0 : ℚ) < Box3.maxDim ⟨⟨0, 0, 0⟩, ⟨1, 2, 4⟩⟩ := by
    norm_num [Box3.maxDim, Box3.getSize, max3]
  ⟨hpos, (C5_normalization ⟨⟨0, 0, 0⟩, ⟨1, 2, 4⟩⟩ hpos).2.1,
    (C5_normalization ⟨⟨0, 0, 0⟩, ⟨1, 2, 4⟩⟩ hpos).2.2.2.2⟩

/-- C6 (confirmed): the top/bottom toggle goes from `top` to `bottom` and
from every other view (including `bottom`) to `top`, and invoking it three
times in a row yields, after the third invocation, the same view tag and the
same camera pose (position, up vector, look-target) as after the first. -/
theorem C6_topBottom_roundTrip (s : ViewerState) :
    (toggleTopBottom s).currentView
        = (if s.currentView = ViewTag.top then ViewTag.bottom else ViewTag.top) ∧
    (toggleTopBottom (toggleTopBottom (toggleTopBottom s))).currentView
        = (toggleTopBottom s).currentView ∧
    (toggleTopBottom (toggleTopBottom (toggleTopBottom s))).camera.position
        = (toggleTopBottom s).camera.position ∧
    (toggleTopBottom (toggleTopBottom (toggleTopBottom s))).camera.up
        = (toggleTopBottom s).camera.up ∧
    (toggleTopBottom (toggleTopBottom (toggleTopBottom s))).camera.lookTarget
        = (toggleTopBottom s).camera.lookTarget := by
  by_cases h : s.currentView = ViewTag.top <;>
    simp [toggleTopBottom, h]

/-- C7, counterexample.  From the initial state (perspective, camera at
`(5,5,5)`, `fov = 75`), toggling the projection mode twice does not return
the camera to its original pose: entering the orthographic-like mode moves
the camera to three times its distance and the return toggle only restores
the field of view, leaving the camera at `(15,15,15)`. -/
theorem C7_counterexample :
    initState.isPerspective = true ∧
    initState.camera.position = ⟨5, 5, 5⟩ ∧
    (toggleCameraMode (toggleCameraMode initState)).camera.position = ⟨15, 15, 15⟩ ∧
    (toggleCameraMode (toggleCameraMode initState)).camera.position
        ≠ initState.camera.position := by
  have hpos : (toggleCameraMode (toggleCameraMode initState)).camera.position
      = (⟨15, 15, 15⟩ : Vec3) := by
    show ((3 : ℚ) • (⟨5, 5, 5⟩ : Vec3)) = (⟨15, 15, 15⟩ : Vec3)
    refine Vec3.ext_comp _ _ ?_ ?_ ?_ <;> norm_num
  refine ⟨rfl, rfl, hpos, ?_⟩
  rw [hpos]
  intro hcon
  have hx : (15 : ℚ) = 5 := congrArg Vec3.x hcon
  norm_num at hx

/-- C7 (amended): every projection toggle preserves the orbit look-target
(and re-orients the camera toward it), and toggling twice from perspective
mode with the default `fov = 75` restores the projection flag and the field
of view — but multiplies the camera position by 3 instead of restoring it,
so the toggle is not reversible in position. -/
theorem C7_projection_toggle (s : ViewerState) :
    (toggleCameraMode s).controls.target = s.controls.target ∧
    (toggleCameraMode s).camera.lookTarget = s.controls.target ∧
    (s.isPerspective = true → s.camera.fov = 75 →
      (toggleCameraMode (toggleCameraMode s)).isPerspective = true ∧
      (toggleCameraMode (toggleCameraMode s)).camera.fov = s.camera.fov ∧
      (toggleCameraMode (toggleCameraMode s)).controls.target = s.controls.target ∧
      (toggleCameraMode (toggleCameraMode s)).camera.position
          = (3 : ℚ) • s.camera.position) := by
  refine ⟨?_, ?_, fun hp hf => ?_⟩
  · cases hp : s.isPerspective <;> simp [toggleCameraMode, hp]
  · cases hp : s.isPerspective <;> simp [toggleCameraMode, hp]
  · simp [toggleCameraMode, hp, hf]

/-- C7 witness: the amended theorem at the initial state. -/
theorem C7_projection_toggle_witness :
    (toggleCameraMode (toggleCameraMode initState)).camera.position
        = (3 : ℚ) • initState.camera.position :=
  ((C7_projection_toggle initState).2.2 rfl rfl).2.2.2

/-- C8 (confirmed): after any event sequence from initialization the move and
rotate flags are never both set; toggling rotate while move is active
deactivates move (and vice versa); and toggling the active move gizmo off —
the way the `none` state is entered — hides the manipulator while leaving
the scene children, the current model and the gizmo attachment untouched. -/
theorem C8_gizmo_exclusion :
    (∀ acts : List Action,
      (run acts).showMoveGizmo = false ∨ (run acts).showRotateGizmo = false) ∧
    (∀ s : ViewerState, s.showMoveGizmo = true → s.showRotateGizmo = false →
      (toggleRotate s).showMoveGizmo = false ∧ (toggleRotate s).showRotateGizmo = true) ∧
    (∀ s : ViewerState, s.showRotateGizmo = true → s.showMoveGizmo = false →
      (toggleMove s).showRotateGizmo = false ∧ (toggleMove s).showMoveGizmo = true) ∧
    (∀ s : ViewerState, s.showMoveGizmo = true → s.showRotateGizmo = false →
      (toggleMove s).gizmoVisible = false ∧ (toggleMove s).showMoveGizmo = false ∧
      (toggleMove s).children = s.children ∧
      (toggleMove s).currentModel = s.currentModel ∧
      (toggleMove s).gizmoTarget = s.gizmoTarget) := by
  refine ⟨?_, ?_, ?_, ?_⟩
  · intro acts
    exact notBothGizmos_runFrom acts initState (Or.inr rfl)
  · intro s hm hr
    constructor <;> simp [toggleRotate, hm, hr]
  · intro s hr hm
    constructor <;> simp [toggleMove, hm, hr]
  · intro s hm hr
    refine ⟨?_, ?_, ?_, ?_, ?_⟩ <;> simp [toggleMove, hm, hr]

/-- C8 witness: toggling rotate from the initial state (move active)
deactivates move and activates rotate. -/
theorem C8_gizmo_exclusion_witness :
    (toggleRotate initState).showMoveGizmo = false ∧
      (toggleRotate initState).showRotateGizmo = true :=
  C8_gizmo_exclusion.2.1 initState rfl rfl

/-- C9, counterexample.  After a top/bottom toggle the view tag is `top`;
invoking the home command (`resetView`) leaves it `top` — `resetView` never
writes `currentView`, so the view-state machine does not transition to the
home/initial state (`iso`), contradicting that part of the claim. -/
theorem C9_counterexample :
    initState.currentView = ViewTag.iso ∧
    (toggleTopBottom initState).currentView = ViewTag.top ∧
    (resetView (toggleTopBottom initState)).currentView = ViewTag.top ∧
    ViewTag.top ≠ ViewTag.iso :=
  ⟨rfl, rfl, rfl, by decide⟩

/-- C9 (amended): from every reachable state, the home command resets the
orbit target to the origin and restores the default camera pose — position
`(5,5,5)` looking at the origin — but it does not transition the view-state
tag, which keeps its prior value. -/
theorem C9_home_resets_pose (acts : List Action) :
    (resetView (run acts)).controls.target = Vec3.zero ∧
    (resetView (run acts)).camera.position = ⟨5, 5, 5⟩ ∧
    (resetView (run acts)).camera.lookTarget = Vec3.zero ∧
    (resetView (run acts)).currentView = (run acts).currentView := by
  refine ⟨?_, rfl, rfl, rfl⟩
  show (run acts).controls.target0 = Vec3.zero
  exact (controlsSaved_runFrom acts initState).1

/-- C10 (confirmed): when the storage upload succeeds and the metadata
insert fails, `uploadModel` removes the just-uploaded file from storage
before rethrowing the insert error, leaving both the storage bucket and the
metadata table exactly as they were — no stored file without a metadata
row. -/
theorem C10_upload_cleanup (env : Upload.RemoteOutcome) (st : Upload.Backend)
    (uid : String) (file : Upload.UploadFile) (options : Upload.UploadOptions)
    (modelId fileHash nowIso e : String)
    (hu : env.uploadError = none) (hi : env.insertError = some e)
    (hp : Upload.storagePathFor uid options.folderPath modelId
        (Upload.fileExtOf file.name) ∉ st.storage) :
    (Upload.uploadModel env st (some uid) file options modelId fileHash nowIso).1 = st ∧
    (Upload.uploadModel env st (some uid) file options modelId fileHash nowIso).2
        = Except.error e := by
  obtain ⟨stor, rows⟩ := st
  simp only [Upload.uploadModel, hu, hi]
  refine ⟨?_, trivial⟩
  have hfil : (stor ++ [Upload.storagePathFor uid options.folderPath modelId
      (Upload.fileExtOf file.name)]).filter
        (· ≠ Upload.storagePathFor uid options.folderPath modelId
          (Upload.fileExtOf file.name)) = stor := by
    rw [List.filter_append]
    have h1 : stor.filter
        (· ≠ Upload.storagePathFor uid options.folderPath modelId
          (Upload.fileExtOf file.name)) = stor := by
      refine List.filter_eq_self.mpr ?_
      intro a ha
      simp only [ne_eq, decide_not, Bool.not_eq_eq_eq_not, Bool.not_true, decide_eq_false_iff_not]
      intro hcon
      exact hp (hcon ▸ ha)
    have h2 : [Upload.storagePathFor uid options.folderPath modelId
        (Upload.fileExtOf file.name)].filter
          (· ≠ Upload.storagePathFor uid options.folderPath modelId
            (Upload.fileExtOf file.name)) = [] := by simp
    rw [h1, h2, List.append_nil]
  rw [hfil]

/-- C10 witness: concrete failing insert after a successful upload — the
backend ends exactly where it started and the insert error propagates. -/
theorem C10_upload_cleanup_witness :
    (Upload.uploadModel ⟨none, some "insert failed"⟩ ⟨["users/u1/zzz.stl"], []⟩
        (some "u1") ⟨"part.stl", 42, none⟩ ⟨"", none, none, [], false⟩
        "abc12345" "deadbeef" "2025-11-01T00:00:00.000Z").1
      = ⟨["users/u1/zzz.stl"], []⟩ :=
  (C10_upload_cleanup ⟨none, some "insert failed"⟩ ⟨["users/u1/zzz.stl"], []⟩
    "u1" ⟨"part.stl", 42, none⟩ ⟨"", none, none, [], false⟩
    "abc12345" "deadbeef" "2025-11-01T00:00:00.000Z" "insert failed"
    rfl rfl (by decide)).1

end E3D

